import Mathlib

/-!
Verification of the MCP Security Auditor's probing and scoring engine.

The definitions below are a shallow embedding of the TypeScript sources:
the type declarations of `src/types/index.ts`, the `SecurityAnalyzer`
service (`src/services/security-analyzer.ts`) and the audit fan-out of
`MCPSecurityAuditor.performAudit` (`src/index.ts`).

Modelling conventions:
* JavaScript numbers are modelled as exact rationals (`ℚ`); every value the
  scorer manipulates is an integer or an integer multiple of `0.5`, all of
  which IEEE doubles represent exactly at the magnitudes involved.
* Timestamps (`Date`) are modelled as integer milliseconds since the epoch
  (`ℤ`); `Date` comparison is integer comparison.  The `toISOString`
  rendering used inside one diagnostic string is abstracted to the decimal
  rendering of the timestamp (the string is never branched on).
* All external collaborators (axios HTTP requests, the `tls` socket used to
  fetch the peer certificate, the `ws` WebSocket handshake, the WHATWG `URL`
  parser, and the clock) are modelled as an oracle record `Env`.  A network
  or parse failure is `Except.error msg`, where `msg` is the `error.message`
  string the catch blocks interpolate into check details.
* An HTTP response's header table is a lookup function `String → Option
  String`; a missing header is `none`, matching `undefined` in JS.  JS
  truthiness of a header value (`undefined` and the empty string are falsy)
  is `jsTruthy`.
-/

/-- `Severity` enum of `src/types/index.ts`. -/
inductive Severity where
  | critical
  | high
  | medium
  | low
  | info
deriving DecidableEq

/-- `CheckStatus` enum of `src/types/index.ts`. -/
inductive CheckStatus where
  | pass
  | fail
  | warning
  | skip
  | error
deriving DecidableEq

/-- `SecurityCategory` enum of `src/types/index.ts`. -/
inductive SecurityCategory where
  | authentication
  | authorization
  | encryption
  | network
  | configuration
  | compliance
  | availability
  | dataProtection
deriving DecidableEq

/-- `SecurityScore` enum of `src/types/index.ts` (letter grades A..F). -/
inductive SecurityScore where
  | EXCELLENT
  | GOOD
  | FAIR
  | POOR
  | CRITICAL
deriving DecidableEq

/-- `SecurityCheck` interface of `src/types/index.ts`.  The `evidence?: any`
field is omitted: no code path of the analyzer ever writes it. -/
structure SecurityCheck where
  id : String
  name : String
  category : SecurityCategory
  status : CheckStatus
  severity : Severity
  description : String
  details : Option String := none
deriving DecidableEq

/-- `SecurityRecommendation` interface of `src/types/index.ts`. -/
structure SecurityRecommendation where
  id : String
  title : String
  description : String
  severity : Severity
  category : SecurityCategory
  actionRequired : Bool
  resources : Option (List String) := none
deriving DecidableEq

/-- `Vulnerability` interface of `src/types/index.ts`. -/
structure Vulnerability where
  id : String
  cve : Option String := none
  title : String
  description : String
  severity : Severity
  category : SecurityCategory
  affected : String
  remediation : Option String := none
  references : Option (List String) := none
deriving DecidableEq

/-- `RateLimit` interface of `src/types/index.ts`. -/
structure RateLimit where
  requests : Nat
  window : String
deriving DecidableEq

/-- `AuthenticationMethod` interface of `src/types/index.ts` (the untyped
`details` bag is omitted; nothing in the analyzer reads it). -/
structure AuthenticationMethod where
  methodType : String
deriving DecidableEq

/-- `MCPServerMetadata` interface of `src/types/index.ts`. -/
structure MCPServerMetadata where
  capabilities : Option (List String) := none
  authentication : Option AuthenticationMethod := none
  rateLimit : Option RateLimit := none
  documentation : Option String := none
  repository : Option String := none
  license : Option String := none
  tags : Option (List String) := none
deriving DecidableEq

/-- The `protocol` union type of the `MCPServer` interface. -/
inductive Protocol where
  | http
  | https
  | ws
  | wss
deriving DecidableEq

/-- `MCPServer` interface of `src/types/index.ts` (`lastSeen : Date` is an
epoch-millisecond integer). -/
structure MCPServer where
  id : String
  name : String
  version : String
  description : Option String := none
  endpoint : String
  protocol : Protocol
  owner : Option String := none
  lastSeen : Int := 0
  metadata : Option MCPServerMetadata := none
deriving DecidableEq

/-- The `\x7bchecks, recommendations, vulnerabilities\x7d` record every probe
of `SecurityAnalyzer` resolves with. -/
structure ProbeFindings where
  checks : List SecurityCheck
  recommendations : List SecurityRecommendation
  vulnerabilities : List Vulnerability
deriving DecidableEq

/-- `SecurityAnalysisResult` interface of `src/types/index.ts`. -/
structure SecurityAnalysisResult where
  serverId : String
  serverName : String
  endpoint : String
  timestamp : Int
  overallScore : SecurityScore
  checks : List SecurityCheck
  recommendations : List SecurityRecommendation
  vulnerabilities : List Vulnerability
deriving DecidableEq

/-- `SecurityAnalyzer.getSeverityWeight`.  The TS `switch` carries a
`default: return 1` arm; `Severity` is a closed enum, so the five listed
cases are exhaustive here. -/
def getSeverityWeight (severity : Severity) : ℚ :=
  match severity with
  | Severity.critical => 10
  | Severity.high => 8
  | Severity.medium => 5
  | Severity.low => 2
  | Severity.info => 1

/-- One iteration of the `checks.forEach` accumulation inside
`SecurityAnalyzer.calculateSecurityScore`: the pair is
`(totalScore, maxScore)`. -/
def scorerStep (acc : ℚ × ℚ) (check : SecurityCheck) : ℚ × ℚ :=
  let severityWeight := getSeverityWeight check.severity
  let maxScore := acc.2 + severityWeight
  if check.status = CheckStatus.pass then
    (acc.1 + severityWeight, maxScore)
  else if check.status = CheckStatus.warning then
    (acc.1 + severityWeight * (0.5 : ℚ), maxScore)
  else
    (acc.1, maxScore)

/-- `SecurityAnalyzer.calculateSecurityScore`, translated line for line:
accumulate `(totalScore, maxScore)` over the checks, return `FAIR` when
`maxScore` is `0`, otherwise grade `percentage = totalScore / maxScore * 100`
through the `>= 90 / >= 80 / >= 60 / >= 40` ladder. -/
def calculateSecurityScore (checks : List SecurityCheck) : SecurityScore :=
  let scores := checks.foldl scorerStep ((0 : ℚ), (0 : ℚ))
  if scores.2 = 0 then SecurityScore.FAIR
  else
    let percentage := scores.1 / scores.2 * 100
    if 90 ≤ percentage then SecurityScore.EXCELLENT
    else if 80 ≤ percentage then SecurityScore.GOOD
    else if 60 ≤ percentage then SecurityScore.FAIR
    else if 40 ≤ percentage then SecurityScore.POOR
    else SecurityScore.CRITICAL

/-- Severity weight table written from the spec's words (§4.3): critical=10,
high=8, medium=5, low=2, info=1.  Second definition of a refinement pair, to
be compared with `getSeverityWeight`. -/
def specSeverityWeight (s : Severity) : ℚ :=
  match s with
  | Severity.critical => 10
  | Severity.high => 8
  | Severity.medium => 5
  | Severity.low => 2
  | Severity.info => 1

/-- Points a single check contributes to `totalScore` per the spec's words:
full weight on `pass`, half the weight on `warning`, nothing otherwise. -/
def specCheckPoints (c : SecurityCheck) : ℚ :=
  if c.status = CheckStatus.pass then specSeverityWeight c.severity
  else if c.status = CheckStatus.warning then specSeverityWeight c.severity / 2
  else 0

/-- The spec's `totalScore`: sum of per-check points. -/
def specTotalScore (checks : List SecurityCheck) : ℚ :=
  (checks.map specCheckPoints).sum

/-- The spec's `maxScore`: sum of all severity weights. -/
def specMaxScore (checks : List SecurityCheck) : ℚ :=
  (checks.map (fun c => specSeverityWeight c.severity)).sum

/-- The Scorer written from the spec's words (§4.3): `FAIR` when `maxScore`
is zero, else map `percentage = 100 * totalScore / maxScore` through the
closed-at-lower-bound thresholds 90/80/60/40.  Second definition of a
refinement pair, to be compared with `calculateSecurityScore`. -/
def specGrade (checks : List SecurityCheck) : SecurityScore :=
  if specMaxScore checks = 0 then SecurityScore.FAIR
  else
    let percentage := 100 * specTotalScore checks / specMaxScore checks
    if 90 ≤ percentage then SecurityScore.EXCELLENT
    else if 80 ≤ percentage then SecurityScore.GOOD
    else if 60 ≤ percentage then SecurityScore.FAIR
    else if 40 ≤ percentage then SecurityScore.POOR
    else SecurityScore.CRITICAL

lemma getSeverityWeight_eq_spec (s : Severity) :
    getSeverityWeight s = specSeverityWeight s := by
  cases s <;> rfl

lemma scorer_foldl_eq (l : List SecurityCheck) :
    ∀ t m : ℚ, l.foldl scorerStep (t, m) = (t + specTotalScore l, m + specMaxScore l) := by
  induction l with
  | nil =>
    intro t m
    simp [specTotalScore, specMaxScore]
  | cons c l ih =>
    intro t m
    simp only [List.foldl_cons, ih, specTotalScore, specMaxScore, List.map_cons,
      List.sum_cons]
    unfold scorerStep specCheckPoints
    rcases hc : c.status <;>
      simp [hc, getSeverityWeight_eq_spec] <;>
      first
      | (constructor <;> ring)
      | ring

/-- C1: the Scorer computes the grade exactly as the spec describes it —
weights critical=10/high=8/medium=5/low=2/info=1, full weight on `pass`,
half on `warning`, nothing on `fail`/`error`; `FAIR` when `maxScore = 0`,
else `percentage = 100 * totalScore / maxScore` graded with thresholds
closed at the lower bound (≥90 EXCELLENT, ≥80 GOOD, ≥60 FAIR, ≥40 POOR,
else CRITICAL). -/
theorem calculateSecurityScore_matches_spec (checks : List SecurityCheck) :
    calculateSecurityScore checks = specGrade checks := by
  unfold calculateSecurityScore specGrade
  rw [scorer_foldl_eq]
  simp only [zero_add]
  by_cases hm : specMaxScore checks = 0
  · simp [hm]
  · have hpe : specTotalScore checks / specMaxScore checks * 100
        = 100 * specTotalScore checks / specMaxScore checks := by
      ring
    simp only [hm, if_false, hpe]

/-- An axios response as the analyzer consumes it: numeric status, status
text, a header lookup (lower-case names as axios normalizes them; `none` is
JS `undefined`), and the stringified body (`response.data`; the
`JSON.stringify` fallback of `containsSensitiveInfo` is absorbed into the
string). -/
structure HttpResponse where
  status : Nat
  statusText : String := ""
  headers : String → Option String := fun _ => none
  body : String := ""

/-- Result of the WHATWG `new URL(...)` parse: the hostname and the `port`
component (`none` for an empty port string, whose `parseInt` is `NaN`). -/
structure URLParts where
  hostname : String
  port : Option Nat := none

/-- Peer-certificate metadata from `tls.connect` +  `getPeerCertificate`:
`validFrom`/`validTo` as epoch milliseconds (the `new Date(...)` parse of the
certificate's date strings). -/
structure CertInfo where
  validFrom : Int
  validTo : Int
deriving DecidableEq

/-- Return type of `SecurityAnalyzer.checkTLSConfiguration`. -/
structure TLSInfo where
  supportsTLS12 : Bool
  supportsTLS13 : Bool
deriving DecidableEq

/-- The external world as the analyzer observes it: the clock and one oracle
per kind of network/library call.  `Except.error msg` is a rejected
promise/thrown error carrying `error.message`. -/
structure Env where
  now : Int
  httpGet : String → Except String HttpResponse
  httpOptions : String → Except String HttpResponse
  wsConnect : String → Except String Unit
  urlParse : String → Except String URLParts
  getCert : String → Nat → Except String (Option CertInfo)

/-- JS truthiness of a possibly-absent header value: `undefined` and `""`
are falsy, every other string is truthy. -/
def jsTruthy (v : Option String) : Bool :=
  match v with
  | none => false
  | some s => !(s == "")

/-- JS `a || b` on header values. -/
def jsOr (a b : Option String) : Option String :=
  if jsTruthy a then a else b

/-- JS `String.prototype.toLowerCase` (ASCII suffices for header names). -/
def toLowerCase (s : String) : String :=
  s.map Char.toLower

/-- `SecurityAnalyzer.checkEndpointAvailability`: WebSocket handshake for
`ws`/`wss`, otherwise a GET accepting every status; `[200,300)` passes,
`>= 400` warns, a transport failure lands in the catch block that emits the
critical `fail` check and the `endpoint-unreachable` vulnerability.  A final
status in `[300,400)` falls through both branches and emits nothing. -/
def checkEndpointAvailability (server : MCPServer) (env : Env) : ProbeFindings :=
  if server.protocol = Protocol.ws ∨ server.protocol = Protocol.wss then
    match env.wsConnect server.endpoint with
    | Except.ok _ =>
      ⟨[{ id := "endpoint-availability-ws", name := "WebSocket Endpoint Availability",
          category := SecurityCategory.availability, status := CheckStatus.pass,
          severity := Severity.high,
          description := "WebSocket endpoint is accessible and responding" }], [], []⟩
    | Except.error msg =>
      ⟨[{ id := "endpoint-availability", name := "Endpoint Availability",
          category := SecurityCategory.availability, status := CheckStatus.fail,
          severity := Severity.critical, description := "Endpoint is not accessible",
          details := some msg }], [],
       [{ id := "endpoint-unreachable", title := "Endpoint Unreachable",
          description := "The MCP server endpoint cannot be reached",
          severity := Severity.high, category := SecurityCategory.availability,
          affected := server.endpoint,
          remediation := some "Verify server is running and network connectivity" }]⟩
  else
    match env.httpGet server.endpoint with
    | Except.ok response =>
      if 200 ≤ response.status ∧ response.status < 300 then
        ⟨[{ id := "endpoint-availability-http", name := "HTTP Endpoint Availability",
            category := SecurityCategory.availability, status := CheckStatus.pass,
            severity := Severity.high,
            description := "HTTP endpoint is accessible and responding normally" }], [], []⟩
      else if 400 ≤ response.status then
        ⟨[{ id := "endpoint-availability-http", name := "HTTP Endpoint Availability",
            category := SecurityCategory.availability, status := CheckStatus.warning,
            severity := Severity.medium,
            description := "Endpoint returned status " ++ toString response.status,
            details := some ("HTTP " ++ toString response.status ++ ": "
              ++ response.statusText) }], [], []⟩
      else
        ⟨[], [], []⟩
    | Except.error msg =>
      ⟨[{ id := "endpoint-availability", name := "Endpoint Availability",
          category := SecurityCategory.availability, status := CheckStatus.fail,
          severity := Severity.critical, description := "Endpoint is not accessible",
          details := some msg }], [],
       [{ id := "endpoint-unreachable", title := "Endpoint Unreachable",
          description := "The MCP server endpoint cannot be reached",
          severity := Severity.high, category := SecurityCategory.availability,
          affected := server.endpoint,
          remediation := some "Verify server is running and network connectivity" }]⟩

/-- `SecurityAnalyzer.checkTLSConfiguration`: the source is an acknowledged
placeholder that ignores both arguments and reports TLS 1.2 and 1.3 as
supported. -/
def checkTLSConfiguration (_hostname : String) (_port : Nat) : TLSInfo :=
  { supportsTLS12 := true, supportsTLS13 := true }

/-- The `parseInt(url.port) || (server.protocol === 'https' ? 443 : 443)`
line of `checkSSLConfiguration` (`parseInt` of an empty port string is `NaN`,
which is falsy, as is `0`). -/
def resolvePort (server : MCPServer) (url : URLParts) : Nat :=
  match url.port with
  | some p => if p = 0 then (if server.protocol = Protocol.https then 443 else 443) else p
  | none => if server.protocol = Protocol.https then 443 else 443

/-- The error-status check pushed by the catch block of
`checkSSLConfiguration`. -/
def sslCheckErrorCheck (msg : String) : SecurityCheck :=
  { id := "ssl-check-error", name := "SSL Configuration Check",
    category := SecurityCategory.encryption, status := CheckStatus.error,
    severity := Severity.medium, description := "Could not verify SSL configuration",
    details := some msg }

/-- The `fail`-status certificate-validity check of `checkSSLConfiguration`
(`toISOString` of the two dates abstracted to decimal timestamps). -/
def sslCertificateInvalidCheck (notBefore notAfter : Int) : SecurityCheck :=
  { id := "ssl-certificate-valid", name := "SSL Certificate Validity",
    category := SecurityCategory.encryption, status := CheckStatus.fail,
    severity := Severity.critical,
    description := "SSL certificate is expired or not yet valid",
    details := some ("Valid from: " ++ toString notBefore ++ ", Valid to: "
      ++ toString notAfter) }

/-- The `pass`-status certificate-validity check of
`checkSSLConfiguration`. -/
def sslCertificateValidCheck : SecurityCheck :=
  { id := "ssl-certificate-valid", name := "SSL Certificate Validity",
    category := SecurityCategory.encryption, status := CheckStatus.pass,
    severity := Severity.high,
    description := "SSL certificate is valid and not expired" }

/-- The `expired-certificate` vulnerability of `checkSSLConfiguration`. -/
def expiredCertificateVuln (endpoint : String) : Vulnerability :=
  { id := "expired-certificate", title := "Expired SSL Certificate",
    description := "The SSL certificate has expired or is not yet valid",
    severity := Severity.critical, category := SecurityCategory.encryption,
    affected := endpoint, remediation := some "Renew the SSL certificate" }

/-- The `certificate-expiry-warning` recommendation of
`checkSSLConfiguration`. -/
def certificateExpiryWarningRec : SecurityRecommendation :=
  { id := "certificate-expiry-warning", title := "SSL Certificate Expiring Soon",
    description := "SSL certificate will expire within 30 days",
    severity := Severity.medium, category := SecurityCategory.encryption,
    actionRequired := true, resources := some ["Certificate renewal documentation"] }

/-- The `pass`-status TLS-version check of `checkSSLConfiguration`. -/
def tlsVersionPassCheck : SecurityCheck :=
  { id := "tls-version", name := "TLS Version Support",
    category := SecurityCategory.encryption, status := CheckStatus.pass,
    severity := Severity.medium, description := "Server supports modern TLS versions" }

/-- The `fail`-status TLS-version check of `checkSSLConfiguration`. -/
def tlsVersionFailCheck : SecurityCheck :=
  { id := "tls-version", name := "TLS Version Support",
    category := SecurityCategory.encryption, status := CheckStatus.fail,
    severity := Severity.high,
    description := "Server does not support modern TLS versions" }

/-- The `outdated-tls` vulnerability of `checkSSLConfiguration`. -/
def outdatedTlsVuln (endpoint : String) : Vulnerability :=
  { id := "outdated-tls", title := "Outdated TLS Version",
    description := "Server only supports outdated TLS versions",
    severity := Severity.high, category := SecurityCategory.encryption,
    affected := endpoint, remediation := some "Upgrade to support TLS 1.2 or higher" }

/-- `SecurityAnalyzer.checkSSLConfiguration`.  A non-`https`/`wss` protocol
short-circuits into the `ssl-not-used` failure plus the
`unencrypted-communication` vulnerability.  Otherwise the URL parse and the
certificate fetch are the fallible steps of the `try` block, whose catch
emits the single `ssl-check-error` check; a fetched-but-empty certificate
object (`\x7b\x7d` from `getPeerCertificate`) skips the whole `if (certInfo)`
body and emits nothing.  With a certificate: validity check against `now`,
the 30-day expiry-warning recommendation whenever
`notAfter <= now + 30 days` (also true for an already expired certificate),
then the TLS-version check driven by the `checkTLSConfiguration`
placeholder, whose returned object is always truthy. -/
def checkSSLConfiguration (server : MCPServer) (env : Env) : ProbeFindings :=
  if server.protocol ≠ Protocol.https ∧ server.protocol ≠ Protocol.wss then
    ⟨[{ id := "ssl-not-used", name := "SSL/TLS Usage",
        category := SecurityCategory.encryption, status := CheckStatus.fail,
        severity := Severity.high,
        description := "Server is not using SSL/TLS encryption" }], [],
     [{ id := "unencrypted-communication", title := "Unencrypted Communication",
        description := "Server communication is not encrypted with SSL/TLS",
        severity := Severity.high, category := SecurityCategory.encryption,
        affected := server.endpoint,
        remediation := some "Enable HTTPS/WSS to encrypt communications" }]⟩
  else
    match env.urlParse server.endpoint with
    | Except.error msg => ⟨[sslCheckErrorCheck msg], [], []⟩
    | Except.ok url =>
      let port := resolvePort server url
      match env.getCert url.hostname port with
      | Except.error msg => ⟨[sslCheckErrorCheck msg], [], []⟩
      | Except.ok none => ⟨[], [], []⟩
      | Except.ok (some certInfo) =>
        let notBefore := certInfo.validFrom
        let notAfter := certInfo.validTo
        let certPart : List SecurityCheck × List Vulnerability :=
          if env.now ≥ notBefore ∧ env.now ≤ notAfter then
            ([sslCertificateValidCheck], [])
          else
            ([sslCertificateInvalidCheck notBefore notAfter],
             [expiredCertificateVuln server.endpoint])
        let thirtyDaysFromNow := env.now + 30 * 24 * 60 * 60 * 1000
        let expiryRecs : List SecurityRecommendation :=
          if notAfter ≤ thirtyDaysFromNow then [certificateExpiryWarningRec] else []
        let tlsInfo := checkTLSConfiguration url.hostname port
        let tlsPart : List SecurityCheck × List Vulnerability :=
          if tlsInfo.supportsTLS12 || tlsInfo.supportsTLS13 then
            ([tlsVersionPassCheck], [])
          else
            ([tlsVersionFailCheck], [outdatedTlsVuln server.endpoint])
        ⟨certPart.1 ++ tlsPart.1, expiryRecs, certPart.2 ++ tlsPart.2⟩

/-- The `pass`-status check of `checkAuthentication` for a 401/403
response. -/
def authenticationRequiredPassCheck : SecurityCheck :=
  { id := "authentication-required", name := "Authentication Required",
    category := SecurityCategory.authentication, status := CheckStatus.pass,
    severity := Severity.high,
    description := "Server properly requires authentication" }

/-- The `warning`-status check of `checkAuthentication` for a 200
response. -/
def authenticationRequiredWarnCheck : SecurityCheck :=
  { id := "authentication-required", name := "Authentication Required",
    category := SecurityCategory.authentication, status := CheckStatus.warning,
    severity := Severity.medium,
    description := "Server allows unauthenticated access" }

/-- The `implement-authentication` recommendation of
`checkAuthentication`. -/
def implementAuthenticationRec : SecurityRecommendation :=
  { id := "implement-authentication", title := "Implement Authentication",
    description := "Consider implementing authentication to secure the API",
    severity := Severity.medium, category := SecurityCategory.authentication,
    actionRequired := false }

/-- The `auth-headers-present` check of `checkAuthentication`. -/
def authHeadersPresentCheck : SecurityCheck :=
  { id := "auth-headers-present", name := "Authentication Headers",
    category := SecurityCategory.authentication, status := CheckStatus.pass,
    severity := Severity.low,
    description := "Server includes proper authentication headers" }

/-- `SecurityAnalyzer.checkAuthentication`: one unauthenticated GET;
401/403 passes, 200 warns and recommends authentication, any other status
emits no status check; then the `['www-authenticate', 'authorization']`
header scan (the source probes each name and its `toLowerCase`, which are
identical for these lower-case literals) appends the `auth-headers-present`
pass check.  The catch block emits the `error`-status check. -/
def checkAuthentication (server : MCPServer) (env : Env) : ProbeFindings :=
  match env.httpGet server.endpoint with
  | Except.error msg =>
    ⟨[{ id := "authentication-check-error", name := "Authentication Check",
        category := SecurityCategory.authentication, status := CheckStatus.error,
        severity := Severity.low,
        description := "Could not verify authentication configuration",
        details := some msg }], [], []⟩
  | Except.ok response =>
    let statusPart : List SecurityCheck × List SecurityRecommendation :=
      if response.status = 401 ∨ response.status = 403 then
        ([authenticationRequiredPassCheck], [])
      else if response.status = 200 then
        ([authenticationRequiredWarnCheck], [implementAuthenticationRec])
      else
        ([], [])
    let hasAuthHeaders := ["www-authenticate", "authorization"].any fun header =>
      jsTruthy (response.headers header) || jsTruthy (response.headers (toLowerCase header))
    let headerPart : List SecurityCheck :=
      if hasAuthHeaders then [authHeadersPresentCheck] else []
    ⟨statusPart.1 ++ headerPart, statusPart.2, []⟩

/-- The `securityHeaders` table of `checkHttpSecurity`, in `Object.entries`
(insertion) order: lower-case header name paired with its display name. -/
def securityHeadersTable : List (String × String) :=
  [("strict-transport-security", "HSTS"),
   ("x-content-type-options", "Content Type Options"),
   ("x-frame-options", "Frame Options"),
   ("x-xss-protection", "XSS Protection"),
   ("content-security-policy", "Content Security Policy")]

/-- The `add-<header>-header` recommendation of `checkHttpSecurity`. -/
def addHeaderRec (entry : String × String) : SecurityRecommendation :=
  { id := "add-" ++ entry.1 ++ "-header", title := "Add " ++ entry.2 ++ " Header",
    description := "Consider adding the " ++ entry.1 ++ " header for enhanced security",
    severity := Severity.low, category := SecurityCategory.configuration,
    actionRequired := false }

/-- One iteration of the `Object.entries(securityHeaders).forEach` loop of
`checkHttpSecurity`: the check pushed for this header (the source probes the
header name and its `toLowerCase`, identical for these lower-case literals)
and the recommendation pushed when it is missing. -/
def securityHeaderFinding (response : HttpResponse) (entry : String × String) :
    SecurityCheck × Option SecurityRecommendation :=
  if jsTruthy (response.headers entry.1)
      || jsTruthy (response.headers (toLowerCase entry.1)) then
    ({ id := "security-header-" ++ entry.1, name := entry.2 ++ " Header",
       category := SecurityCategory.configuration, status := CheckStatus.pass,
       severity := Severity.low, description := entry.2 ++ " header is present" },
     none)
  else
    ({ id := "security-header-" ++ entry.1, name := entry.2 ++ " Header",
       category := SecurityCategory.configuration, status := CheckStatus.warning,
       severity := Severity.low, description := entry.2 ++ " header is missing" },
     some (addHeaderRec entry))

/-- The `server-header-disclosure` check of `checkHttpSecurity`, carrying the
disclosed header value in its details. -/
def serverDisclosureCheck (value : String) : SecurityCheck :=
  { id := "server-header-disclosure", name := "Server Information Disclosure",
    category := SecurityCategory.configuration, status := CheckStatus.warning,
    severity := Severity.low,
    description := "Server header reveals server information",
    details := some ("Server: " ++ value) }

/-- The `hide-server-header` recommendation of `checkHttpSecurity`. -/
def hideServerHeaderRec : SecurityRecommendation :=
  { id := "hide-server-header", title := "Hide Server Header",
    description := "Consider hiding or minimizing server header information",
    severity := Severity.low, category := SecurityCategory.configuration,
    actionRequired := false }

/-- `SecurityAnalyzer.checkHttpSecurity`: skipped for WebSocket protocols;
one GET, whose transport failure lands in the catch block's `error` check;
otherwise one check per entry of `securityHeadersTable` (pass when present,
warning plus recommendation when missing) followed by the
server-header-disclosure pair when `response.headers.server ||
response.headers.Server` is truthy. -/
def checkHttpSecurity (server : MCPServer) (env : Env) : ProbeFindings :=
  if server.protocol = Protocol.ws ∨ server.protocol = Protocol.wss then
    ⟨[], [], []⟩
  else
    match env.httpGet server.endpoint with
    | Except.error msg =>
      ⟨[{ id := "http-security-check-error", name := "HTTP Security Check",
          category := SecurityCategory.configuration, status := CheckStatus.error,
          severity := Severity.low,
          description := "Could not verify HTTP security configuration",
          details := some msg }], [], []⟩
    | Except.ok response =>
      let headerFindings := securityHeadersTable.map (securityHeaderFinding response)
      let serverHeader := jsOr (response.headers "server") (response.headers "Server")
      let serverPart : List SecurityCheck × List SecurityRecommendation :=
        match serverHeader with
        | some value =>
          if value = "" then ([], [])
          else ([serverDisclosureCheck value], [hideServerHeaderRec])
        | none => ([], [])
      ⟨headerFindings.map Prod.fst ++ serverPart.1,
       headerFindings.filterMap Prod.snd ++ serverPart.2, []⟩

/-- Remainder of the list after the first occurrence of `needle`, `none`
when `needle` never occurs — the search step shared by the regex tests of
`containsSensitiveInfo`. -/
def dropAfterFirst (needle : List Char) : List Char → Option (List Char)
  | [] => if needle.isEmpty then some [] else none
  | c :: rest =>
    if needle.isPrefixOf (c :: rest) then some ((c :: rest).drop needle.length)
    else dropAfterFirst needle rest

/-- Unanchored substring test over characters. -/
def containsSub (hay needle : List Char) : Bool :=
  (dropAfterFirst needle hay).isSome

/-- Whether the list contains a run of at least `need` consecutive
alphanumeric characters, `cur` of which have already been seen — the
`[a-zA-Z0-9]\x7b20,\x7d` tail of one sensitive-data regex. -/
def hasAlnumRun (need : Nat) : Nat → List Char → Bool
  | cur, [] => need ≤ cur
  | cur, c :: rest =>
    need ≤ cur
      || (if c.isAlphanum then hasAlnumRun need (cur + 1) rest
          else hasAlnumRun need 0 rest)

/-- `SecurityAnalyzer.containsSensitiveInfo`: case-insensitive match of the
stringified body against the fixed pattern set `password`, `secret`,
`token`, `key` then `=` then twenty alphanumerics, `api` then `key`,
`private` then `key` (each `.*` is an arbitrary gap, realized by searching
after the first occurrence of the previous literal, which is
existence-equivalent). -/
def containsSensitiveInfo (data : String) : Bool :=
  let l := (toLowerCase data).toList
  containsSub l "password".toList
    || containsSub l "secret".toList
    || containsSub l "token".toList
    || (match dropAfterFirst "key".toList l with
        | some r1 =>
          match dropAfterFirst "=".toList r1 with
          | some r2 => hasAlnumRun 20 0 r2
          | none => false
        | none => false)
    || (match dropAfterFirst "api".toList l with
        | some r => containsSub r "key".toList
        | none => false)
    || (match dropAfterFirst "private".toList l with
        | some r => containsSub r "key".toList
        | none => false)

/-- The fixed probe-path list of `checkAPIEndpoints`. -/
def apiEndpointsList : List String :=
  ["/metadata", "/info", "/health", "/status", "/api", "/docs", "/swagger", "/openapi"]

/-- JS `endpoint.replace(/\/$/, '')`: strip one trailing slash. -/
def stripTrailingSlash (s : String) : String :=
  if s.endsWith "/" then s.dropRight 1 else s

/-- JS `endpoint.replace('/', '-')`: replace the first slash. -/
def replaceFirstSlash (s : String) : String :=
  let rec go : List Char → List Char
    | [] => []
    | c :: rest => if c = '/' then '-' :: rest else c :: go rest
  String.mk (go s.toList)

/-- One iteration of the per-path loop of `checkAPIEndpoints`: a transport
failure is swallowed (`// Ignore endpoint check errors`); a 200 yields the
informational pass check and, when the body matches the sensitive-data
patterns, the exposure vulnerability. -/
def checkAPIEndpointPath (baseUrl : String) (env : Env) (endpoint : String) :
    ProbeFindings :=
  match env.httpGet (baseUrl ++ endpoint) with
  | Except.error _ => ⟨[], [], []⟩
  | Except.ok response =>
    if response.status = 200 then
      ⟨[{ id := "endpoint" ++ replaceFirstSlash endpoint,
          name := "Endpoint " ++ endpoint,
          category := SecurityCategory.configuration, status := CheckStatus.pass,
          severity := Severity.info,
          description := "Endpoint " ++ endpoint ++ " is accessible" }], [],
       if containsSensitiveInfo response.body then
         [{ id := "sensitive-info" ++ endpoint,
            title := "Sensitive Information Exposure",
            description := "Endpoint " ++ endpoint ++ " may expose sensitive information",
            severity := Severity.medium, category := SecurityCategory.dataProtection,
            affected := baseUrl ++ endpoint,
            remediation := some "Review and sanitize endpoint responses" }]
       else []⟩
    else ⟨[], [], []⟩

/-- Concatenation of probe findings in order — the effect of pushing each
iteration's findings onto shared arrays. -/
def mergeFindings (l : List ProbeFindings) : ProbeFindings :=
  ⟨(l.map ProbeFindings.checks).flatten,
   (l.map ProbeFindings.recommendations).flatten,
   (l.map ProbeFindings.vulnerabilities).flatten⟩

/-- `SecurityAnalyzer.checkAPIEndpoints`: probe each well-known path under
the endpoint with its trailing slash stripped; per-path failures are
swallowed inside the loop, so the outer catch (the `error`-status
`api-endpoints-check-error` check) is unreachable and does not appear. -/
def checkAPIEndpoints (server : MCPServer) (env : Env) : ProbeFindings :=
  let baseUrl := stripTrailingSlash server.endpoint
  mergeFindings (apiEndpointsList.map (checkAPIEndpointPath baseUrl env))

/-- `SecurityAnalyzer.checkRateLimit`: no network traffic; a declared
`metadata.rateLimit` passes, otherwise a warning plus the
`implement-rate-limiting` recommendation (`server.metadata?.rateLimit` is
truthy exactly when both options are populated). -/
def checkRateLimit (server : MCPServer) (_env : Env) : ProbeFindings :=
  match server.metadata with
  | some metadata =>
    match metadata.rateLimit with
    | some _ =>
      ⟨[{ id := "rate-limit-configured", name := "Rate Limiting",
          category := SecurityCategory.availability, status := CheckStatus.pass,
          severity := Severity.medium, description := "Rate limiting is configured" }],
       [], []⟩
    | none =>
      ⟨[{ id := "rate-limit-configured", name := "Rate Limiting",
          category := SecurityCategory.availability, status := CheckStatus.warning,
          severity := Severity.low,
          description := "Rate limiting configuration not detected" }],
       [{ id := "implement-rate-limiting", title := "Implement Rate Limiting",
          description := "Consider implementing rate limiting to prevent abuse",
          severity := Severity.low, category := SecurityCategory.availability,
          actionRequired := false }], []⟩
  | none =>
    ⟨[{ id := "rate-limit-configured", name := "Rate Limiting",
        category := SecurityCategory.availability, status := CheckStatus.warning,
        severity := Severity.low,
        description := "Rate limiting configuration not detected" }],
     [{ id := "implement-rate-limiting", title := "Implement Rate Limiting",
        description := "Consider implementing rate limiting to prevent abuse",
        severity := Severity.low, category := SecurityCategory.availability,
        actionRequired := false }], []⟩

/-- `SecurityAnalyzer.checkCORSConfiguration`: skipped for WebSocket
protocols; one OPTIONS request (Origin preflight), whose transport failure
lands in the catch block's `error` check; a literal `*`
`access-control-allow-origin` warns and recommends restriction, any other
truthy value passes, a falsy one emits nothing. -/
def checkCORSConfiguration (server : MCPServer) (env : Env) : ProbeFindings :=
  if server.protocol = Protocol.ws ∨ server.protocol = Protocol.wss then
    ⟨[], [], []⟩
  else
    match env.httpOptions server.endpoint with
    | Except.error msg =>
      ⟨[{ id := "cors-check-error", name := "CORS Configuration Check",
          category := SecurityCategory.configuration, status := CheckStatus.error,
          severity := Severity.low,
          description := "Could not verify CORS configuration",
          details := some msg }], [], []⟩
    | Except.ok response =>
      let corsHeader := response.headers "access-control-allow-origin"
      if corsHeader = some "*" then
        ⟨[{ id := "cors-wildcard", name := "CORS Configuration",
            category := SecurityCategory.configuration, status := CheckStatus.warning,
            severity := Severity.medium, description := "CORS allows all origins (*)",
            details := some "Access-Control-Allow-Origin: *" }],
         [{ id := "restrict-cors-origins", title := "Restrict CORS Origins",
            description := "Consider restricting CORS to specific trusted origins",
            severity := Severity.medium, category := SecurityCategory.configuration,
            actionRequired := false }], []⟩
      else if jsTruthy corsHeader then
        ⟨[{ id := "cors-configured", name := "CORS Configuration",
            category := SecurityCategory.configuration, status := CheckStatus.pass,
            severity := Severity.low,
            description := "CORS is properly configured with specific origins" }],
         [], []⟩
      else
        ⟨[], [], []⟩

/-- `SecurityAnalyzer.checkSecurityHeaders`: reserved no-op probe. -/
def checkSecurityHeaders (_server : MCPServer) (_env : Env) : ProbeFindings :=
  ⟨[], [], []⟩

/-- The indexed `checkResults.forEach` of `SecurityAnalyzer.analyzeServer`:
a fulfilled outcome's three arrays are appended to the shared accumulators
(a fulfilled probe value is an object, hence always truthy); a rejected
outcome is logged as the diagnostic `(index, reason)` and contributes no
findings. -/
def processAux (i : Nat) : List (Except String ProbeFindings) →
    ProbeFindings × List (Nat × String)
  | [] => (⟨[], [], []⟩, [])
  | r :: rest =>
    let tail := processAux (i + 1) rest
    match r with
    | Except.ok value =>
      (⟨value.checks ++ tail.1.checks,
        value.recommendations ++ tail.1.recommendations,
        value.vulnerabilities ++ tail.1.vulnerabilities⟩, tail.2)
    | Except.error msg => (tail.1, (i, msg) :: tail.2)

/-- The `Promise.allSettled` join of `analyzeServer`: merge the settled
probe outcomes in order, collecting a logged diagnostic per rejection.  It
is a total function — the runner never rejects, whatever the outcomes. -/
def processCheckResults (results : List (Except String ProbeFindings)) :
    ProbeFindings × List (Nat × String) :=
  processAux 0 results

/-- `SecurityAnalyzer.analyzeServer`.  The eight probes run under
`Promise.allSettled`; each probe is an `async` method that catches its own
faults, so every outcome settles fulfilled — hence the `Except.ok` wrappers.
Because `allSettled` itself never rejects and the remaining statements
(scoring, object construction) cannot throw, the surrounding
`catch`/`SecurityAnalysisError` re-throw of the source is unreachable and
`analyzeServer` is total. -/
def analyzeServer (server : MCPServer) (env : Env) : SecurityAnalysisResult :=
  let checkResults : List (Except String ProbeFindings) :=
    [Except.ok (checkEndpointAvailability server env),
     Except.ok (checkSSLConfiguration server env),
     Except.ok (checkAuthentication server env),
     Except.ok (checkHttpSecurity server env),
     Except.ok (checkAPIEndpoints server env),
     Except.ok (checkRateLimit server env),
     Except.ok (checkCORSConfiguration server env),
     Except.ok (checkSecurityHeaders server env)]
  let merged := (processCheckResults checkResults).1
  { serverId := server.id, serverName := server.name, endpoint := server.endpoint,
    timestamp := env.now,
    overallScore := calculateSecurityScore merged.checks,
    checks := merged.checks,
    recommendations := merged.recommendations,
    vulnerabilities := merged.vulnerabilities }

/-- The analysis fan-out of `MCPSecurityAuditor.performAudit` (Phase 2,
after discovery): each server's `analyzeServer` result is pushed onto
`analysisResults`; the per-server `catch` would log and skip a server whose
analysis throws, but `analyzeServer` is total (see its comment), so every
server contributes exactly one result, in input order under the sequential
model of the settled fan-out. -/
def performAudit (servers : List MCPServer) (env : Env) :
    List SecurityAnalysisResult :=
  servers.foldl (fun acc server => acc ++ [analyzeServer server env]) []

/-- `scorerStep` restricted to the only two fields it reads. -/
def scorerPairStep (acc : ℚ × ℚ) (p : Severity × CheckStatus) : ℚ × ℚ :=
  let severityWeight := getSeverityWeight p.1
  let maxScore := acc.2 + severityWeight
  if p.2 = CheckStatus.pass then (acc.1 + severityWeight, maxScore)
  else if p.2 = CheckStatus.warning then (acc.1 + severityWeight * (0.5 : ℚ), maxScore)
  else (acc.1, maxScore)

/-- The scoring algorithm as a function of the `(severity, status)` pairs
alone. -/
def scoreFromPairs (ps : List (Severity × CheckStatus)) : SecurityScore :=
  let scores := ps.foldl scorerPairStep ((0 : ℚ), (0 : ℚ))
  if scores.2 = 0 then SecurityScore.FAIR
  else
    let percentage := scores.1 / scores.2 * 100
    if 90 ≤ percentage then SecurityScore.EXCELLENT
    else if 80 ≤ percentage then SecurityScore.GOOD
    else if 60 ≤ percentage then SecurityScore.FAIR
    else if 40 ≤ percentage then SecurityScore.POOR
    else SecurityScore.CRITICAL

lemma calculateSecurityScore_eq_pairs (checks : List SecurityCheck) :
    calculateSecurityScore checks
      = scoreFromPairs (checks.map fun c => (c.severity, c.status)) := by
  unfold calculateSecurityScore scoreFromPairs
  rw [List.foldl_map]
  rfl

/-- C8: the Scorer is a pure, deterministic function of its input —
re-running it on the same (immutable) checks collection yields the same
grade, and the grade depends only on each check's severity and status, so
no hidden state and no field outside the input influences it. -/
theorem calculateSecurityScore_pure (checks : List SecurityCheck)
    (f : SecurityCheck → SecurityCheck)
    (hf : ∀ c, (f c).severity = c.severity ∧ (f c).status = c.status) :
    calculateSecurityScore checks = calculateSecurityScore checks ∧
    calculateSecurityScore (checks.map f) = calculateSecurityScore checks := by
  refine ⟨rfl, ?_⟩
  rw [calculateSecurityScore_eq_pairs, calculateSecurityScore_eq_pairs checks,
    List.map_map]
  congr 1
  apply List.map_congr_left
  intro c _
  simp [Function.comp, (hf c).1, (hf c).2]

/-- A one-check collection used to instantiate the purity theorem. -/
def scorerDemoChecks : List SecurityCheck :=
  [{ id := "endpoint-availability-http", name := "HTTP Endpoint Availability",
     category := SecurityCategory.availability, status := CheckStatus.pass,
     severity := Severity.high,
     description := "HTTP endpoint is accessible and responding normally" }]

/-- A field rewrite that leaves severity and status untouched. -/
def scorerDemoRedact (c : SecurityCheck) : SecurityCheck :=
  { c with description := "", details := none }

theorem calculateSecurityScore_pure_witness :
    calculateSecurityScore scorerDemoChecks = calculateSecurityScore scorerDemoChecks ∧
    calculateSecurityScore (scorerDemoChecks.map scorerDemoRedact)
      = calculateSecurityScore scorerDemoChecks :=
  calculateSecurityScore_pure scorerDemoChecks scorerDemoRedact
    (fun _ => ⟨rfl, rfl⟩)

lemma mergeFindings_nil : mergeFindings [] = ⟨[], [], []⟩ := rfl

lemma mergeFindings_cons (v : ProbeFindings) (l : List ProbeFindings) :
    mergeFindings (v :: l)
      = ⟨v.checks ++ (mergeFindings l).checks,
         v.recommendations ++ (mergeFindings l).recommendations,
         v.vulnerabilities ++ (mergeFindings l).vulnerabilities⟩ := by
  simp [mergeFindings]

lemma mergeFindings_append (l₁ l₂ : List ProbeFindings) :
    mergeFindings (l₁ ++ l₂)
      = ⟨(mergeFindings l₁).checks ++ (mergeFindings l₂).checks,
         (mergeFindings l₁).recommendations ++ (mergeFindings l₂).recommendations,
         (mergeFindings l₁).vulnerabilities ++ (mergeFindings l₂).vulnerabilities⟩ := by
  simp [mergeFindings]

lemma processAux_all_ok (l : List ProbeFindings) :
    ∀ i : Nat, processAux i (l.map Except.ok) = (mergeFindings l, []) := by
  induction l with
  | nil => intro i; rfl
  | cons v rest ih =>
    intro i
    simp [processAux, ih, mergeFindings_cons]

lemma processAux_ok_append (pre : List ProbeFindings)
    (rest : List (Except String ProbeFindings)) :
    ∀ i : Nat, processAux i (pre.map Except.ok ++ rest)
      = (⟨(mergeFindings pre).checks ++ (processAux (i + pre.length) rest).1.checks,
          (mergeFindings pre).recommendations
            ++ (processAux (i + pre.length) rest).1.recommendations,
          (mergeFindings pre).vulnerabilities
            ++ (processAux (i + pre.length) rest).1.vulnerabilities⟩,
         (processAux (i + pre.length) rest).2) := by
  induction pre with
  | nil => intro i; simp [mergeFindings_nil]
  | cons v ps ih =>
    intro i
    have hidx : i + 1 + ps.length = i + (ps.length + 1) := by omega
    simp only [List.map_cons, List.cons_append, processAux, List.append_eq,
      ih (i + 1), mergeFindings_cons, List.length_cons, List.append_assoc, hidx]

/-- C3: the probe runner isolates a single internal fault.  However the
other probes behave, a probe that raises is turned into one logged
diagnostic carrying its index and reason, contributes no findings, and the
three merged collections are exactly the in-order merge of the sibling
probes' findings; `processCheckResults` is a total function, so the runner
itself never rejects. -/
theorem runner_isolates_single_fault (pre post : List ProbeFindings)
    (reason : String) :
    processCheckResults
        (pre.map Except.ok ++ Except.error reason :: post.map Except.ok)
      = (mergeFindings (pre ++ post), [(pre.length, reason)]) := by
  unfold processCheckResults
  rw [processAux_ok_append]
  simp only [processAux, processAux_all_ok, mergeFindings_append]
  simp

/-- Demo server for the reachability-probe theorems. -/
def redirectDemoServer : MCPServer :=
  { id := "srv-redirect", name := "redirecting server", version := "1.0.0",
    endpoint := "http://example.test/", protocol := Protocol.http }

/-- Environment whose endpoint GET settles on a 302 after redirect
following. -/
def redirectDemoEnv : Env :=
  { now := 0,
    httpGet := fun _ => Except.ok { status := 302 },
    httpOptions := fun _ => Except.error "not used",
    wsConnect := fun _ => Except.error "not used",
    urlParse := fun _ => Except.error "not used",
    getCert := fun _ _ => Except.error "not used" }

/-- C9: a final HTTP status in `[300, 400)` (a redirect status surviving
redirect following) makes the reachability probe emit nothing at all — no
check of any status and no vulnerability; its output covers only `[200,300)`
(pass), `>= 400` (warning) and transport failure (fail). -/
theorem reachability_redirect_emits_nothing (server : MCPServer) (env : Env)
    (response : HttpResponse)
    (hp : server.protocol = Protocol.http ∨ server.protocol = Protocol.https)
    (hr : env.httpGet server.endpoint = Except.ok response)
    (h3 : 300 ≤ response.status) (h4 : response.status < 400) :
    checkEndpointAvailability server env = ⟨[], [], []⟩ := by
  have h1 : ¬(200 ≤ response.status ∧ response.status < 300) := by omega
  have h2 : ¬(400 ≤ response.status) := by omega
  rcases hp with hp | hp <;>
    simp [checkEndpointAvailability, hp, hr, h1, h2]

theorem reachability_redirect_emits_nothing_witness :
    checkEndpointAvailability redirectDemoServer redirectDemoEnv = ⟨[], [], []⟩ :=
  reachability_redirect_emits_nothing redirectDemoServer redirectDemoEnv
    { status := 302 } (Or.inl rfl) rfl (by norm_num) (by norm_num)

/-- C7: the authentication probe on a 200 response emits exactly one
warning-status check — the medium-severity `authentication-required`
warning — plus exactly one recommendation; on a 401 response it emits
exactly one pass-status check of high severity and no recommendation
(whatever authentication headers the response carries, the optional
`auth-headers-present` check is pass/low and never adds a
recommendation). -/
theorem authentication_probe_statuses (server : MCPServer) (env : Env)
    (response : HttpResponse)
    (hr : env.httpGet server.endpoint = Except.ok response) :
    (response.status = 200 →
      ((checkAuthentication server env).checks.filter
          (fun c => c.status == CheckStatus.warning))
        = [authenticationRequiredWarnCheck] ∧
      authenticationRequiredWarnCheck.severity = Severity.medium ∧
      (checkAuthentication server env).recommendations
        = [implementAuthenticationRec]) ∧
    (response.status = 401 →
      ((checkAuthentication server env).checks.filter
          (fun c => c.status == CheckStatus.pass && c.severity == Severity.high))
        = [authenticationRequiredPassCheck] ∧
      (checkAuthentication server env).recommendations = []) := by
  constructor
  · intro h200
    cases hH : (["www-authenticate", "authorization"].any fun header =>
        jsTruthy (response.headers header)
          || jsTruthy (response.headers (toLowerCase header))) <;>
      simp [checkAuthentication, hr, h200, hH, authenticationRequiredWarnCheck,
        authHeadersPresentCheck]
  · intro h401
    cases hH : (["www-authenticate", "authorization"].any fun header =>
        jsTruthy (response.headers header)
          || jsTruthy (response.headers (toLowerCase header))) <;>
      simp [checkAuthentication, hr, h401, hH, authenticationRequiredPassCheck,
        authHeadersPresentCheck]

/-- Demo server for the authentication-probe witness. -/
def authDemoServer : MCPServer :=
  { id := "srv-auth", name := "auth demo", version := "1.0.0",
    endpoint := "http://auth.test/", protocol := Protocol.http }

/-- Environment whose endpoint GET returns a bare 200. -/
def authDemoEnv200 : Env :=
  { now := 0,
    httpGet := fun _ => Except.ok { status := 200 },
    httpOptions := fun _ => Except.error "not used",
    wsConnect := fun _ => Except.error "not used",
    urlParse := fun _ => Except.error "not used",
    getCert := fun _ _ => Except.error "not used" }

/-- Environment whose endpoint GET returns a bare 401. -/
def authDemoEnv401 : Env :=
  { now := 0,
    httpGet := fun _ => Except.ok { status := 401 },
    httpOptions := fun _ => Except.error "not used",
    wsConnect := fun _ => Except.error "not used",
    urlParse := fun _ => Except.error "not used",
    getCert := fun _ _ => Except.error "not used" }

theorem authentication_probe_statuses_witness :
    ((checkAuthentication authDemoServer authDemoEnv200).checks.filter
        (fun c => c.status == CheckStatus.warning))
      = [authenticationRequiredWarnCheck] ∧
    (checkAuthentication authDemoServer authDemoEnv200).recommendations
      = [implementAuthenticationRec] ∧
    ((checkAuthentication authDemoServer authDemoEnv401).checks.filter
        (fun c => c.status == CheckStatus.pass && c.severity == Severity.high))
      = [authenticationRequiredPassCheck] ∧
    (checkAuthentication authDemoServer authDemoEnv401).recommendations = [] := by
  have h1 := authentication_probe_statuses authDemoServer authDemoEnv200
    { status := 200 } rfl
  have h2 := authentication_probe_statuses authDemoServer authDemoEnv401
    { status := 401 } rfl
  exact ⟨(h1.1 rfl).1, (h1.1 rfl).2.2, (h2.2 rfl).1, (h2.2 rfl).2⟩

lemma securityHeaderFinding_fst_id (response : HttpResponse) (e : String × String) :
    ((securityHeaderFinding response e).1).id = "security-header-" ++ e.1 := by
  unfold securityHeaderFinding
  split <;> rfl

lemma securityHeaderFinding_snd_id (response : HttpResponse) (e : String × String)
    (r : SecurityRecommendation) (h : (securityHeaderFinding response e).2 = some r) :
    r.id = "add-" ++ e.1 ++ "-header" := by
  unfold securityHeaderFinding at h
  split at h
  · cases h
  · cases h
    rfl

lemma securityHeaderFinding_not_disclosure (response : HttpResponse)
    (e : String × String) (he : e ∈ securityHeadersTable) :
    ¬(((securityHeaderFinding response e).1).id == "server-header-disclosure") = true := by
  rw [securityHeaderFinding_fst_id]
  fin_cases he <;> decide

lemma securityHeaderFinding_not_hide (response : HttpResponse)
    (e : String × String) (r : SecurityRecommendation)
    (he : e ∈ securityHeadersTable) (h : (securityHeaderFinding response e).2 = some r) :
    ¬(r.id == "hide-server-header") = true := by
  rw [securityHeaderFinding_snd_id response e r h]
  fin_cases he <;> decide

lemma headerFindings_checks_filter (response : HttpResponse) :
    ((securityHeadersTable.map (securityHeaderFinding response)).map Prod.fst).filter
        (fun c => c.id == "server-header-disclosure") = [] := by
  rw [List.filter_eq_nil_iff]
  intro c hc
  rw [List.map_map, List.mem_map] at hc
  obtain ⟨e, he, hce⟩ := hc
  subst hce
  exact securityHeaderFinding_not_disclosure response e he

lemma headerFindings_recs_filter (response : HttpResponse) :
    ((securityHeadersTable.map (securityHeaderFinding response)).filterMap Prod.snd).filter
        (fun r => r.id == "hide-server-header") = [] := by
  rw [List.filter_eq_nil_iff]
  intro r hrm
  rw [List.mem_filterMap] at hrm
  obtain ⟨a, ha, har⟩ := hrm
  rw [List.mem_map] at ha
  obtain ⟨e, he, hae⟩ := ha
  subst hae
  exact securityHeaderFinding_not_hide response e r he har

/-- C10: on an http/https GET response with a non-empty `Server` header, the
HTTP security probe emits — in addition to the five per-header checks (the
checks list has six entries) — exactly one `server-header-disclosure`
warning of low severity with the header value in its details, and exactly
one `hide-server-header` recommendation; when the header is absent the
checks list has only the five per-header entries and neither the disclosure
check nor the recommendation appears. -/
theorem server_header_disclosure_probe (server : MCPServer) (env : Env)
    (response : HttpResponse) (v : String)
    (hp : server.protocol = Protocol.http ∨ server.protocol = Protocol.https)
    (hr : env.httpGet server.endpoint = Except.ok response) :
    (response.headers "server" = some v → v ≠ "" →
      ((checkHttpSecurity server env).checks.filter
          (fun c => c.id == "server-header-disclosure")) = [serverDisclosureCheck v] ∧
      (serverDisclosureCheck v).status = CheckStatus.warning ∧
      (serverDisclosureCheck v).severity = Severity.low ∧
      (serverDisclosureCheck v).details = some ("Server: " ++ v) ∧
      (checkHttpSecurity server env).checks.length = 6 ∧
      ((checkHttpSecurity server env).recommendations.filter
          (fun r => r.id == "hide-server-header")) = [hideServerHeaderRec]) ∧
    (response.headers "server" = none → response.headers "Server" = none →
      ((checkHttpSecurity server env).checks.filter
          (fun c => c.id == "server-header-disclosure")) = [] ∧
      (checkHttpSecurity server env).checks.length = 5 ∧
      ((checkHttpSecurity server env).recommendations.filter
          (fun r => r.id == "hide-server-header")) = []) := by
  have hws : ¬(server.protocol = Protocol.ws ∨ server.protocol = Protocol.wss) := by
    rcases hp with h | h <;> simp [h]
  constructor
  · intro hs hv
    have hd : checkHttpSecurity server env
        = ⟨(securityHeadersTable.map (securityHeaderFinding response)).map Prod.fst
             ++ [serverDisclosureCheck v],
           (securityHeadersTable.map (securityHeaderFinding response)).filterMap Prod.snd
             ++ [hideServerHeaderRec], []⟩ := by
      unfold checkHttpSecurity
      simp [hws, hr, jsOr, jsTruthy, hs, hv]
    rw [hd]
    refine ⟨?_, rfl, rfl, rfl, ?_, ?_⟩
    · rw [List.filter_append, headerFindings_checks_filter]
      rfl
    · simp [securityHeadersTable]
    · rw [List.filter_append, headerFindings_recs_filter]
      rfl
  · intro hs hS
    have hd : checkHttpSecurity server env
        = ⟨(securityHeadersTable.map (securityHeaderFinding response)).map Prod.fst,
           (securityHeadersTable.map (securityHeaderFinding response)).filterMap Prod.snd,
           []⟩ := by
      unfold checkHttpSecurity
      simp [hws, hr, jsOr, jsTruthy, hs, hS]
    rw [hd]
    exact ⟨headerFindings_checks_filter response, by simp [securityHeadersTable],
      headerFindings_recs_filter response⟩

/-- C5: the TLS-version inspection is a hardwired placeholder.
`checkTLSConfiguration` reports TLS 1.2/1.3 support for every host and
port, so the `fail`-status branch of the `TLS Version Support` check and the
`outdated-tls` vulnerability of `checkSSLConfiguration` are unreachable: for
every server and every environment no `outdated-tls` vulnerability is ever
emitted and every emitted `tls-version` check has status `pass`. -/
theorem tls_version_check_is_placeholder :
    (∀ hostname port, checkTLSConfiguration hostname port
        = { supportsTLS12 := true, supportsTLS13 := true }) ∧
    (∀ server env,
      ((checkSSLConfiguration server env).vulnerabilities.filter
          (fun v => v.id == "outdated-tls")) = [] ∧
      ((checkSSLConfiguration server env).checks.filter
          (fun c => c.id == "tls-version" && !(c.status == CheckStatus.pass))) = []) := by
  refine ⟨fun _ _ => rfl, fun server env => ?_⟩
  unfold checkSSLConfiguration
  split
  · exact ⟨rfl, rfl⟩
  · split
    · exact ⟨rfl, rfl⟩
    · dsimp only
      split
      · exact ⟨rfl, rfl⟩
      · exact ⟨rfl, rfl⟩
      · dsimp only
        split <;> exact ⟨rfl, rfl⟩

/-- Demo https server for the TLS-probe theorems. -/
def sslDemoServer : MCPServer :=
  { id := "srv-ssl", name := "ssl demo", version := "1.0.0",
    endpoint := "https://ssl.test/", protocol := Protocol.https }

/-- Environment presenting a peer certificate whose `notAfter` lies strictly
in the past relative to the analysis time. -/
def expiredCertEnv : Env :=
  { now := 1000000000000,
    httpGet := fun _ => Except.error "connection refused",
    httpOptions := fun _ => Except.error "connection refused",
    wsConnect := fun _ => Except.error "connection refused",
    urlParse := fun _ => Except.ok { hostname := "ssl.test", port := none },
    getCert := fun _ _ => Except.ok (some { validFrom := 0, validTo := 999 }) }

/-- C4 counterexample: against a host presenting an expired certificate the
TLS probe does emit the `certificate-expiry-warning` recommendation — the
source pushes it whenever `notAfter <= now + 30 days`, which every expired
certificate satisfies — contradicting the claim that no expiry-warning
recommendation is emitted for an already-expired certificate. -/
theorem tls_expired_cert_claim_counterexample :
    (checkSSLConfiguration sslDemoServer expiredCertEnv).recommendations
      = [certificateExpiryWarningRec] := by
  decide

/-- C4 (amended): for every https/wss server whose peer certificate has
`notAfter` strictly in the past, the TLS probe emits exactly one fail-status
check of critical severity for certificate validity and one
`expired-certificate` vulnerability — and, in addition, it emits the
`certificate-expiry-warning` recommendation, because the 30-day expiry
window test `notAfter <= now + 30 days` also holds for an already expired
certificate (the TLS-version pass check emitted alongside is not a fail). -/
theorem tls_expired_cert_behavior (server : MCPServer) (env : Env)
    (url : URLParts) (cert : CertInfo)
    (hp : server.protocol = Protocol.https ∨ server.protocol = Protocol.wss)
    (hu : env.urlParse server.endpoint = Except.ok url)
    (hc : env.getCert url.hostname (resolvePort server url)
      = Except.ok (some cert))
    (hexp : cert.validTo < env.now) :
    (checkSSLConfiguration server env).checks
      = [sslCertificateInvalidCheck cert.validFrom cert.validTo,
         tlsVersionPassCheck] ∧
    ((checkSSLConfiguration server env).checks.filter
        (fun c => c.status == CheckStatus.fail))
      = [sslCertificateInvalidCheck cert.validFrom cert.validTo] ∧
    (sslCertificateInvalidCheck cert.validFrom cert.validTo).severity
      = Severity.critical ∧
    (checkSSLConfiguration server env).vulnerabilities
      = [expiredCertificateVuln server.endpoint] ∧
    (checkSSLConfiguration server env).recommendations
      = [certificateExpiryWarningRec] := by
  have hprot : ¬(server.protocol ≠ Protocol.https ∧ server.protocol ≠ Protocol.wss) := by
    rcases hp with h | h <;> simp [h]
  have hval : ¬(env.now ≥ cert.validFrom ∧ env.now ≤ cert.validTo) := by
    intro h
    omega
  have hex : cert.validTo ≤ env.now + 30 * 24 * 60 * 60 * 1000 := by omega
  have hd : checkSSLConfiguration server env
      = ⟨[sslCertificateInvalidCheck cert.validFrom cert.validTo,
          tlsVersionPassCheck],
         [certificateExpiryWarningRec],
         [expiredCertificateVuln server.endpoint]⟩ := by
    unfold checkSSLConfiguration
    rw [if_neg hprot, hu]
    dsimp only
    rw [hc]
    dsimp only
    rw [if_neg hval, if_pos hex]
    rfl
  rw [hd]
  exact ⟨rfl, rfl, rfl, rfl, rfl⟩

theorem tls_expired_cert_behavior_witness :
    (checkSSLConfiguration sslDemoServer expiredCertEnv).checks
      = [sslCertificateInvalidCheck 0 999, tlsVersionPassCheck] ∧
    ((checkSSLConfiguration sslDemoServer expiredCertEnv).checks.filter
        (fun c => c.status == CheckStatus.fail))
      = [sslCertificateInvalidCheck 0 999] ∧
    (sslCertificateInvalidCheck 0 999).severity = Severity.critical ∧
    (checkSSLConfiguration sslDemoServer expiredCertEnv).vulnerabilities
      = [expiredCertificateVuln sslDemoServer.endpoint] ∧
    (checkSSLConfiguration sslDemoServer expiredCertEnv).recommendations
      = [certificateExpiryWarningRec] :=
  tls_expired_cert_behavior sslDemoServer expiredCertEnv
    { hostname := "ssl.test", port := none } { validFrom := 0, validTo := 999 }
    (Or.inl rfl) rfl rfl (by norm_num [expiredCertEnv])

lemma apiEndpoints_all_fail (server : MCPServer) (env : Env)
    (hg : ∀ u, ∃ e, env.httpGet u = Except.error e) :
    checkAPIEndpoints server env = ⟨[], [], []⟩ := by
  have hpath : ∀ p, checkAPIEndpointPath (stripTrailingSlash server.endpoint) env p
      = ⟨[], [], []⟩ := by
    intro p
    obtain ⟨e, he⟩ := hg (stripTrailingSlash server.endpoint ++ p)
    simp [checkAPIEndpointPath, he]
  simp [checkAPIEndpoints, apiEndpointsList, hpath, mergeFindings]

lemma analyzeServer_checks (server : MCPServer) (env : Env) :
    (analyzeServer server env).checks
      = (checkEndpointAvailability server env).checks
        ++ ((checkSSLConfiguration server env).checks
        ++ ((checkAuthentication server env).checks
        ++ ((checkHttpSecurity server env).checks
        ++ ((checkAPIEndpoints server env).checks
        ++ ((checkRateLimit server env).checks
        ++ ((checkCORSConfiguration server env).checks
        ++ ((checkSecurityHeaders server env).checks ++ []))))))) := by
  rfl

/-- C6: for an `http` server whose every network request fails, the
reachability probe yields exactly one fail/critical check plus the
`endpoint-unreachable` vulnerability, the TLS probe yields exactly one
fail-status `SSL/TLS Usage` check plus the `unencrypted-communication`
vulnerability, and the overall grade the Scorer computes over all merged
checks is `CRITICAL` (F) — whatever the server's metadata declares. -/
theorem unreachable_http_scenario (server : MCPServer) (env : Env)
    (hp : server.protocol = Protocol.http)
    (hg : ∀ u, ∃ e, env.httpGet u = Except.error e)
    (ho : ∀ u, ∃ e, env.httpOptions u = Except.error e) :
    ((checkEndpointAvailability server env).checks.map
        (fun c => (c.id, c.status, c.severity)))
      = [("endpoint-availability", CheckStatus.fail, Severity.critical)] ∧
    ((checkEndpointAvailability server env).vulnerabilities.map Vulnerability.id)
      = ["endpoint-unreachable"] ∧
    ((checkSSLConfiguration server env).checks.map
        (fun c => (c.id, c.name, c.status)))
      = [("ssl-not-used", "SSL/TLS Usage", CheckStatus.fail)] ∧
    ((checkSSLConfiguration server env).vulnerabilities.map Vulnerability.id)
      = ["unencrypted-communication"] ∧
    (analyzeServer server env).overallScore = SecurityScore.CRITICAL := by
  obtain ⟨e1, he1⟩ := hg server.endpoint
  obtain ⟨e2, he2⟩ := ho server.endpoint
  have hAvail : checkEndpointAvailability server env
      = ⟨[{ id := "endpoint-availability", name := "Endpoint Availability",
            category := SecurityCategory.availability, status := CheckStatus.fail,
            severity := Severity.critical,
            description := "Endpoint is not accessible", details := some e1 }], [],
         [{ id := "endpoint-unreachable", title := "Endpoint Unreachable",
            description := "The MCP server endpoint cannot be reached",
            severity := Severity.high, category := SecurityCategory.availability,
            affected := server.endpoint,
            remediation := some "Verify server is running and network connectivity" }]⟩ := by
    simp [checkEndpointAvailability, hp, he1]
  have hSSL : checkSSLConfiguration server env
      = ⟨[{ id := "ssl-not-used", name := "SSL/TLS Usage",
            category := SecurityCategory.encryption, status := CheckStatus.fail,
            severity := Severity.high,
            description := "Server is not using SSL/TLS encryption" }], [],
         [{ id := "unencrypted-communication", title := "Unencrypted Communication",
            description := "Server communication is not encrypted with SSL/TLS",
            severity := Severity.high, category := SecurityCategory.encryption,
            affected := server.endpoint,
            remediation := some "Enable HTTPS/WSS to encrypt communications" }]⟩ := by
    simp [checkSSLConfiguration, hp]
  have hAuth : checkAuthentication server env
      = ⟨[{ id := "authentication-check-error", name := "Authentication Check",
            category := SecurityCategory.authentication, status := CheckStatus.error,
            severity := Severity.low,
            description := "Could not verify authentication configuration",
            details := some e1 }], [], []⟩ := by
    simp [checkAuthentication, he1]
  have hHttpSec : checkHttpSecurity server env
      = ⟨[{ id := "http-security-check-error", name := "HTTP Security Check",
            category := SecurityCategory.configuration, status := CheckStatus.error,
            severity := Severity.low,
            description := "Could not verify HTTP security configuration",
            details := some e1 }], [], []⟩ := by
    simp [checkHttpSecurity, hp, he1]
  have hAPI := apiEndpoints_all_fail server env hg
  have hCORS : checkCORSConfiguration server env
      = ⟨[{ id := "cors-check-error", name := "CORS Configuration Check",
            category := SecurityCategory.configuration, status := CheckStatus.error,
            severity := Severity.low,
            description := "Could not verify CORS configuration",
            details := some e2 }], [], []⟩ := by
    simp [checkCORSConfiguration, hp, he2]
  refine ⟨?_, ?_, ?_, ?_, ?_⟩
  · rw [hAvail]
    rfl
  · rw [hAvail]
    rfl
  · rw [hSSL]
    rfl
  · rw [hSSL]
    rfl
  show calculateSecurityScore (analyzeServer server env).checks = SecurityScore.CRITICAL
  rw [calculateSecurityScore_eq_pairs, analyzeServer_checks, hAvail, hSSL, hAuth,
    hHttpSec, hAPI, hCORS]
  have hRL : ((checkRateLimit server env).checks.map fun c => (c.severity, c.status))
        = [(Severity.low, CheckStatus.warning)]
      ∨ ((checkRateLimit server env).checks.map fun c => (c.severity, c.status))
        = [(Severity.medium, CheckStatus.pass)] := by
    unfold checkRateLimit
    rcases server.metadata with _ | m
    · exact Or.inl rfl
    · dsimp only
      rcases m.rateLimit with _ | rl
      · exact Or.inl rfl
      · exact Or.inr rfl
  rcases hRL with hRL | hRL <;>
    · simp only [checkSecurityHeaders, List.map_append, hRL]
      simp [scoreFromPairs, scorerPairStep, getSeverityWeight]
      norm_num

/-- The spec's unreachable-endpoint demo server `http://127.0.0.1:1`. -/
def unreachableDemoServer : MCPServer :=
  { id := "srv-unreachable", name := "unreachable demo", version := "1.0.0",
    endpoint := "http://127.0.0.1:1", protocol := Protocol.http }

/-- Environment in which every network request fails. -/
def allFailEnv : Env :=
  { now := 0,
    httpGet := fun _ => Except.error "connect ECONNREFUSED",
    httpOptions := fun _ => Except.error "connect ECONNREFUSED",
    wsConnect := fun _ => Except.error "connect ECONNREFUSED",
    urlParse := fun _ => Except.error "connect ECONNREFUSED",
    getCert := fun _ _ => Except.error "connect ECONNREFUSED" }

theorem unreachable_http_scenario_witness :
    ((checkEndpointAvailability unreachableDemoServer allFailEnv).checks.map
        (fun c => (c.id, c.status, c.severity)))
      = [("endpoint-availability", CheckStatus.fail, Severity.critical)] ∧
    ((checkEndpointAvailability unreachableDemoServer allFailEnv).vulnerabilities.map
        Vulnerability.id)
      = ["endpoint-unreachable"] ∧
    ((checkSSLConfiguration unreachableDemoServer allFailEnv).checks.map
        (fun c => (c.id, c.name, c.status)))
      = [("ssl-not-used", "SSL/TLS Usage", CheckStatus.fail)] ∧
    ((checkSSLConfiguration unreachableDemoServer allFailEnv).vulnerabilities.map
        Vulnerability.id)
      = ["unencrypted-communication"] ∧
    (analyzeServer unreachableDemoServer allFailEnv).overallScore
      = SecurityScore.CRITICAL :=
  unreachable_http_scenario unreachableDemoServer allFailEnv rfl
    (fun _ => ⟨"connect ECONNREFUSED", rfl⟩)
    (fun _ => ⟨"connect ECONNREFUSED", rfl⟩)

/-- A structurally invalid server record: empty-string endpoint. -/
def malformedDemoServer : MCPServer :=
  { id := "srv-malformed", name := "malformed demo", version := "1.0.0",
    endpoint := "", protocol := Protocol.http }

/-- C2 counterexample: with 3 servers of which exactly one has an
empty-string endpoint, the audit fan-out returns 3 AnalysisResults, not 2.
Every probe catches its own faults and `Promise.allSettled` absorbs any
rejection, so `analyzeServer` never throws the typed
`SecurityAnalysisError` for a malformed record — the malformed server is
analyzed (its probes degrade to fail/error checks) and is not excluded. -/
theorem audit_malformed_claim_counterexample :
    (performAudit [unreachableDemoServer, malformedDemoServer, sslDemoServer]
        allFailEnv).length = 3 ∧
    (performAudit [unreachableDemoServer, malformedDemoServer, sslDemoServer]
        allFailEnv).length ≠ 2 :=
  ⟨rfl, by decide⟩

/-- C2 (amended): for every environment and every 3-server collection of
which one has an empty-string endpoint, the audit orchestrator returns
exactly 3 AnalysisResults — one per server, the malformed one included,
since the typed-analysis-error path is unreachable — and the orchestrator
itself never raises (it is a total function). -/
theorem audit_includes_malformed_server (env : Env) (s1 s2 s3 : MCPServer)
    (_h2 : s2.endpoint = "") :
    performAudit [s1, s2, s3] env
      = [analyzeServer s1 env, analyzeServer s2 env, analyzeServer s3 env] ∧
    (performAudit [s1, s2, s3] env).length = 3 :=
  ⟨rfl, rfl⟩

theorem audit_includes_malformed_server_witness :
    performAudit [unreachableDemoServer, malformedDemoServer, sslDemoServer]
        allFailEnv
      = [analyzeServer unreachableDemoServer allFailEnv,
         analyzeServer malformedDemoServer allFailEnv,
         analyzeServer sslDemoServer allFailEnv] ∧
    (performAudit [unreachableDemoServer, malformedDemoServer, sslDemoServer]
        allFailEnv).length = 3 :=
  audit_includes_malformed_server allFailEnv unreachableDemoServer
    malformedDemoServer sslDemoServer rfl

/-- Demo http server for the server-header-disclosure witness. -/
def headerDemoServer : MCPServer :=
  { id := "srv-headers", name := "header demo", version := "1.0.0",
    endpoint := "http://headers.test/", protocol := Protocol.http }

/-- Response presented by the header-disclosure demo environment. -/
def headerDemoResponse : HttpResponse :=
  { status := 200,
    headers := fun nm => if nm == "server" then some "nginx" else none }

/-- Environment whose endpoint GET answers with a `Server: nginx` header. -/
def headerDemoEnv : Env :=
  { now := 0,
    httpGet := fun _ => Except.ok headerDemoResponse,
    httpOptions := fun _ => Except.error "not used",
    wsConnect := fun _ => Except.error "not used",
    urlParse := fun _ => Except.error "not used",
    getCert := fun _ _ => Except.error "not used" }

theorem server_header_disclosure_probe_witness :
    ((checkHttpSecurity headerDemoServer headerDemoEnv).checks.filter
        (fun c => c.id == "server-header-disclosure"))
      = [serverDisclosureCheck "nginx"] ∧
    (checkHttpSecurity headerDemoServer headerDemoEnv).checks.length = 6 ∧
    ((checkHttpSecurity headerDemoServer headerDemoEnv).recommendations.filter
        (fun r => r.id == "hide-server-header")) = [hideServerHeaderRec] := by
  have h := server_header_disclosure_probe headerDemoServer headerDemoEnv
    headerDemoResponse "nginx" (Or.inl rfl) rfl
  have h1 := h.1 rfl (by decide)
  exact ⟨h1.1, h1.2.2.2.2.1, h1.2.2.2.2.2⟩
